import Mathlib

/-!
Verification development for the ICRAF–ISRIC soil database schema catalog
(`types.h`) and the referentially-consistent record store specified on top
of it (Schema Registry, Record Store, Reference Resolver, Join/Query Layer).

The source repository contains only the generated C header of struct
declarations.  Its struct field lists are transcribed below verbatim
(name and declared C type per field; fields declared without a type in the
generated header are recorded as `untyped`).  The record store, resolver
and join operations have no code in the repository, so they are modelled
from the specification and marked as such in their doc comments.
-/

/-- A field's declared C type in `types.h`: `char *`, `int`, `long`, or a
line that declares a name with no type (the generated header contains many
such lines). -/
inductive CType where
  | charPtr
  | cint
  | clong
  | untyped
deriving DecidableEq, Repr

/-- Runtime value of a record field: a string (for `char *` columns) or an
integer (for `int`/`long` columns). -/
inductive Value where
  | vstr : String → Value
  | vint : Int → Value
deriving DecidableEq, Repr

/-- A record is a finite map from field names to values, kept as an
association list in field order. -/
abbrev Record := List (String × Value)

/-- Error taxonomy of the record store, from the specification. -/
inductive Err where
  | SchemaError
  | DuplicateKeyError
  | TypeMismatchError
  | DanglingReferenceError
  | OverlappingIntervalError
  | ReferencedError
  | NotFoundError
deriving DecidableEq, Repr

/-- Field list of `Chemical_properties` transcribed from `types.h` (name, declared C type). -/
def Chemical_properties_fields : List (String × CType) := [
  ("iso", CType.charPtr),
  ("id", CType.cint),
  ("hori", CType.cint),
  ("btop", CType.cint),
  ("bbot", CType.cint),
  ("sampleno", CType.charPtr),
  ("phh2o", CType.untyped),
  ("phkcl", CType.untyped),
  ("phcacl2", CType.untyped),
  ("caco3", CType.untyped),
  ("caso4", CType.untyped),
  ("orgc", CType.untyped),
  ("orgn", CType.untyped),
  ("c/n", CType.clong),
  ("ca", CType.untyped),
  ("mg", CType.untyped),
  ("na", CType.untyped),
  ("k", CType.untyped),
  ("sum", CType.untyped),
  ("exacid", CType.untyped),
  ("exal", CType.untyped),
  ("cecsoil", CType.untyped),
  ("cecclay", CType.cint),
  ("cecorg", CType.untyped),
  ("ecec", CType.untyped),
  ("bs", CType.clong),
  ("als", CType.untyped),
  ("esp", CType.clong),
  ("ec", CType.untyped),
  ("chemrem", CType.charPtr),
  ("editdate", CType.untyped),
  ("verified", CType.charPtr)
]

/-- Field list of `Clay_mineralogy` transcribed from `types.h` (name, declared C type). -/
def Clay_mineralogy_fields : List (String × CType) := [
  ("iso", CType.charPtr),
  ("id", CType.cint),
  ("hori", CType.cint),
  ("top", CType.cint),
  ("bot", CType.cint),
  ("sampleno", CType.charPtr),
  ("kaol", CType.charPtr),
  ("mill", CType.charPtr),
  ("verm", CType.charPtr),
  ("chlor", CType.charPtr),
  ("smec", CType.charPtr),
  ("hall", CType.charPtr),
  ("mix", CType.charPtr),
  ("quar", CType.charPtr),
  ("feld", CType.charPtr),
  ("gibb", CType.charPtr),
  ("goet", CType.charPtr),
  ("hem", CType.charPtr),
  ("minx", CType.charPtr),
  ("miny", CType.charPtr),
  ("minz", CType.charPtr),
  ("fe", CType.untyped),
  ("al", CType.untyped),
  ("ammfe", CType.untyped),
  ("ammal", CType.untyped),
  ("ammsi", CType.untyped),
  ("fep", CType.untyped),
  ("alp", CType.untyped),
  ("cp", CType.untyped),
  ("pret", CType.cint),
  ("phnaf", CType.untyped),
  ("odoe", CType.untyped),
  ("mi", CType.untyped),
  ("cminrem", CType.charPtr),
  ("editdate", CType.untyped),
  ("verified", CType.charPtr),
  ("codetype", CType.charPtr),
  ("type", CType.charPtr)
]

/-- Field list of `Climate_Data` transcribed from `types.h` (name, declared C type). -/
def Climate_Data_fields : List (String × CType) := [
  ("iso", CType.charPtr),
  ("id", CType.cint),
  ("type", CType.charPtr),
  ("nrecord", CType.cint),
  ("annual", CType.untyped),
  ("jan", CType.untyped),
  ("feb", CType.untyped),
  ("mar", CType.untyped),
  ("apr", CType.untyped),
  ("may", CType.untyped),
  ("jun", CType.untyped),
  ("jul", CType.untyped),
  ("aug", CType.untyped),
  ("sep", CType.untyped),
  ("oct", CType.untyped),
  ("nov", CType.untyped),
  ("dec", CType.untyped),
  ("editdate", CType.untyped)
]

/-- Field list of `Climate_Data_Big` transcribed from `types.h` (name, declared C type). -/
def Climate_Data_Big_fields : List (String × CType) := [
  ("iso", CType.charPtr),
  ("id", CType.cint),
  ("type", CType.charPtr),
  ("nrecord", CType.cint),
  ("annual", CType.untyped),
  ("jan", CType.untyped),
  ("feb", CType.untyped),
  ("mar", CType.untyped),
  ("apr", CType.untyped),
  ("may", CType.untyped),
  ("jun", CType.untyped),
  ("jul", CType.untyped),
  ("aug", CType.untyped),
  ("sep", CType.untyped),
  ("oct", CType.untyped),
  ("nov", CType.untyped),
  ("dec", CType.untyped),
  ("editdate", CType.untyped)
]

/-- Field list of `Climate_Station` transcribed from `types.h` (name, declared C type). -/
def Climate_Station_fields : List (String × CType) := [
  ("iso", CType.charPtr),
  ("id", CType.cint),
  ("wmocode", CType.untyped),
  ("statname", CType.charPtr),
  ("lonew", CType.charPtr),
  ("lond", CType.cint),
  ("lonm", CType.cint),
  ("latns", CType.charPtr),
  ("latd", CType.cint),
  ("latm", CType.cint),
  ("alt", CType.cint),
  ("editdate", CType.untyped)
]

/-- Field list of `ASD Spectra` transcribed from `types.h` (name, declared C type). -/
def ASD_Spectra_fields : List (String × CType) := [
  ("batch_labid", CType.charPtr),
  ("w350", CType.untyped),
  ("w360", CType.untyped),
  ("w370", CType.untyped),
  ("w380", CType.untyped),
  ("w390", CType.untyped),
  ("w400", CType.untyped),
  ("w410", CType.untyped),
  ("w420", CType.untyped),
  ("w430", CType.untyped),
  ("w440", CType.untyped),
  ("w450", CType.untyped),
  ("w460", CType.untyped),
  ("w470", CType.untyped),
  ("w480", CType.untyped),
  ("w490", CType.untyped),
  ("w500", CType.untyped),
  ("w510", CType.untyped),
  ("w520", CType.untyped),
  ("w530", CType.untyped),
  ("w540", CType.untyped),
  ("w550", CType.untyped),
  ("w560", CType.untyped),
  ("w570", CType.untyped),
  ("w580", CType.untyped),
  ("w590", CType.untyped),
  ("w600", CType.untyped),
  ("w610", CType.untyped),
  ("w620", CType.untyped),
  ("w630", CType.untyped),
  ("w640", CType.untyped),
  ("w650", CType.untyped),
  ("w660", CType.untyped),
  ("w670", CType.untyped),
  ("w680", CType.untyped),
  ("w690", CType.untyped),
  ("w700", CType.untyped),
  ("w710", CType.untyped),
  ("w720", CType.untyped),
  ("w730", CType.untyped),
  ("w740", CType.untyped),
  ("w750", CType.untyped),
  ("w760", CType.untyped),
  ("w770", CType.untyped),
  ("w780", CType.untyped),
  ("w790", CType.untyped),
  ("w800", CType.untyped),
  ("w810", CType.untyped),
  ("w820", CType.untyped),
  ("w830", CType.untyped),
  ("w840", CType.untyped),
  ("w850", CType.untyped),
  ("w860", CType.untyped),
  ("w870", CType.untyped),
  ("w880", CType.untyped),
  ("w890", CType.untyped),
  ("w900", CType.untyped),
  ("w910", CType.untyped),
  ("w920", CType.untyped),
  ("w930", CType.untyped),
  ("w940", CType.untyped),
  ("w950", CType.untyped),
  ("w960", CType.untyped),
  ("w970", CType.untyped),
  ("w980", CType.untyped),
  ("w990", CType.untyped),
  ("w1000", CType.untyped),
  ("w1010", CType.untyped),
  ("w1020", CType.untyped),
  ("w1030", CType.untyped),
  ("w1040", CType.untyped),
  ("w1050", CType.untyped),
  ("w1060", CType.untyped),
  ("w1070", CType.untyped),
  ("w1080", CType.untyped),
  ("w1090", CType.untyped),
  ("w1100", CType.untyped),
  ("w1110", CType.untyped),
  ("w1120", CType.untyped),
  ("w1130", CType.untyped),
  ("w1140", CType.untyped),
  ("w1150", CType.untyped),
  ("w1160", CType.untyped),
  ("w1170", CType.untyped),
  ("w1180", CType.untyped),
  ("w1190", CType.untyped),
  ("w1200", CType.untyped),
  ("w1210", CType.untyped),
  ("w1220", CType.untyped),
  ("w1230", CType.untyped),
  ("w1240", CType.untyped),
  ("w1250", CType.untyped),
  ("w1260", CType.untyped),
  ("w1270", CType.untyped),
  ("w1280", CType.untyped),
  ("w1290", CType.untyped),
  ("w1300", CType.untyped),
  ("w1310", CType.untyped),
  ("w1320", CType.untyped),
  ("w1330", CType.untyped),
  ("w1340", CType.untyped),
  ("w1350", CType.untyped),
  ("w1360", CType.untyped),
  ("w1370", CType.untyped),
  ("w1380", CType.untyped),
  ("w1390", CType.untyped),
  ("w1400", CType.untyped),
  ("w1410", CType.untyped),
  ("w1420", CType.untyped),
  ("w1430", CType.untyped),
  ("w1440", CType.untyped),
  ("w1450", CType.untyped),
  ("w1460", CType.untyped),
  ("w1470", CType.untyped),
  ("w1480", CType.untyped),
  ("w1490", CType.untyped),
  ("w1500", CType.untyped),
  ("w1510", CType.untyped),
  ("w1520", CType.untyped),
  ("w1530", CType.untyped),
  ("w1540", CType.untyped),
  ("w1550", CType.untyped),
  ("w1560", CType.untyped),
  ("w1570", CType.untyped),
  ("w1580", CType.untyped),
  ("w1590", CType.untyped),
  ("w1600", CType.untyped),
  ("w1610", CType.untyped),
  ("w1620", CType.untyped),
  ("w1630", CType.untyped),
  ("w1640", CType.untyped),
  ("w1650", CType.untyped),
  ("w1660", CType.untyped),
  ("w1670", CType.untyped),
  ("w1680", CType.untyped),
  ("w1690", CType.untyped),
  ("w1700", CType.untyped),
  ("w1710", CType.untyped),
  ("w1720", CType.untyped),
  ("w1730", CType.untyped),
  ("w1740", CType.untyped),
  ("w1750", CType.untyped),
  ("w1760", CType.untyped),
  ("w1770", CType.untyped),
  ("w1780", CType.untyped),
  ("w1790", CType.untyped),
  ("w1800", CType.untyped),
  ("w1810", CType.untyped),
  ("w1820", CType.untyped),
  ("w1830", CType.untyped),
  ("w1840", CType.untyped),
  ("w1850", CType.untyped),
  ("w1860", CType.untyped),
  ("w1870", CType.untyped),
  ("w1880", CType.untyped),
  ("w1890", CType.untyped),
  ("w1900", CType.untyped),
  ("w1910", CType.untyped),
  ("w1920", CType.untyped),
  ("w1930", CType.untyped),
  ("w1940", CType.untyped),
  ("w1950", CType.untyped),
  ("w1960", CType.untyped),
  ("w1970", CType.untyped),
  ("w1980", CType.untyped),
  ("w1990", CType.untyped),
  ("w2000", CType.untyped),
  ("w2010", CType.untyped),
  ("w2020", CType.untyped),
  ("w2030", CType.untyped),
  ("w2040", CType.untyped),
  ("w2050", CType.untyped),
  ("w2060", CType.untyped),
  ("w2070", CType.untyped),
  ("w2080", CType.untyped),
  ("w2090", CType.untyped),
  ("w2100", CType.untyped),
  ("w2110", CType.untyped),
  ("w2120", CType.untyped),
  ("w2130", CType.untyped),
  ("w2140", CType.untyped),
  ("w2150", CType.untyped),
  ("w2160", CType.untyped),
  ("w2170", CType.untyped),
  ("w2180", CType.untyped),
  ("w2190", CType.untyped),
  ("w2200", CType.untyped),
  ("w2210", CType.untyped),
  ("w2220", CType.untyped),
  ("w2230", CType.untyped),
  ("w2240", CType.untyped),
  ("w2250", CType.untyped),
  ("w2260", CType.untyped),
  ("w2270", CType.untyped),
  ("w2280", CType.untyped),
  ("w2290", CType.untyped),
  ("w2300", CType.untyped),
  ("w2310", CType.untyped),
  ("w2320", CType.untyped),
  ("w2330", CType.untyped),
  ("w2340", CType.untyped),
  ("w2350", CType.untyped),
  ("w2360", CType.untyped),
  ("w2370", CType.untyped),
  ("w2380", CType.untyped),
  ("w2390", CType.untyped),
  ("w2400", CType.untyped),
  ("w2410", CType.untyped),
  ("w2420", CType.untyped),
  ("w2430", CType.untyped),
  ("w2440", CType.untyped),
  ("w2450", CType.untyped),
  ("w2460", CType.untyped),
  ("w2470", CType.untyped),
  ("w2480", CType.untyped),
  ("w2490", CType.untyped),
  ("w2500", CType.untyped)
]

/-- Field list of `Morphology_I` transcribed from `types.h` (name, declared C type). -/
def Morphology_I_fields : List (String × CType) := [
  ("iso", CType.charPtr),
  ("id", CType.cint),
  ("hori", CType.cint),
  ("symbol", CType.charPtr),
  ("top", CType.cint),
  ("bot", CType.cint),
  ("wid", CType.charPtr),
  ("tpg", CType.charPtr),
  ("hued", CType.charPtr),
  ("vald", CType.untyped),
  ("chromd", CType.untyped),
  ("hue", CType.charPtr),
  ("value", CType.untyped),
  ("chroma", CType.untyped),
  ("grade", CType.charPtr),
  ("size", CType.charPtr),
  ("form", CType.charPtr),
  ("fore", CType.charPtr),
  ("grade2", CType.charPtr),
  ("size2", CType.charPtr),
  ("form2", CType.charPtr),
  ("fieldtx", CType.charPtr),
  ("txmod", CType.charPtr),
  ("orgk", CType.charPtr),
  ("orgd", CType.charPtr),
  ("cond", CType.charPtr),
  ("conm", CType.charPtr),
  ("conws", CType.charPtr),
  ("conwp", CType.charPtr),
  ("cono", CType.charPtr),
  ("porq", CType.charPtr),
  ("porq1", CType.charPtr),
  ("porq2", CType.charPtr),
  ("porq21", CType.charPtr),
  ("pors", CType.charPtr),
  ("pors1", CType.charPtr),
  ("pors2", CType.charPtr),
  ("pors21", CType.charPtr),
  ("porc", CType.charPtr),
  ("porc2", CType.charPtr),
  ("pord", CType.charPtr),
  ("pord2", CType.charPtr),
  ("porf", CType.charPtr),
  ("porf2", CType.charPtr),
  ("poro", CType.charPtr),
  ("poro2", CType.charPtr),
  ("port", CType.charPtr),
  ("roq", CType.charPtr),
  ("roq2", CType.charPtr),
  ("ros", CType.charPtr),
  ("ros2", CType.charPtr),
  ("rol", CType.charPtr),
  ("rol2", CType.charPtr),
  ("effa", CType.charPtr),
  ("effc", CType.charPtr),
  ("effl", CType.charPtr),
  ("phval", CType.untyped),
  ("remarks", CType.charPtr),
  ("editdate", CType.untyped),
  ("ver", CType.charPtr)
]

/-- Field list of `Morphology_II` transcribed from `types.h` (name, declared C type). -/
def Morphology_II_fields : List (String × CType) := [
  ("iso", CType.charPtr),
  ("id", CType.cint),
  ("hori", CType.cint),
  ("motta", CType.charPtr),
  ("motta2", CType.charPtr),
  ("motts", CType.charPtr),
  ("motts2", CType.charPtr),
  ("mottc", CType.charPtr),
  ("mottc2", CType.charPtr),
  ("mottb", CType.charPtr),
  ("mottb2", CType.charPtr),
  ("motthue", CType.charPtr),
  ("mottval", CType.untyped),
  ("mottch", CType.untyped),
  ("motthu2", CType.charPtr),
  ("mottva2", CType.untyped),
  ("mottch2", CType.untyped),
  ("cutc", CType.charPtr),
  ("cutt", CType.charPtr),
  ("cutk", CType.charPtr),
  ("cutl", CType.charPtr),
  ("incq", CType.charPtr),
  ("incq2", CType.charPtr),
  ("inct", CType.charPtr),
  ("inct2", CType.charPtr),
  ("incsi", CType.charPtr),
  ("incsi2", CType.charPtr),
  ("inch", CType.charPtr),
  ("inch2", CType.charPtr),
  ("incsh", CType.charPtr),
  ("incsh2", CType.charPtr),
  ("incc", CType.charPtr),
  ("incc2", CType.charPtr),
  ("rockq", CType.charPtr),
  ("rockq2", CType.charPtr),
  ("rocks", CType.charPtr),
  ("rocks2", CType.charPtr),
  ("rockw", CType.charPtr),
  ("rockw2", CType.charPtr),
  ("rockc", CType.charPtr),
  ("rockc2", CType.charPtr),
  ("pank", CType.charPtr),
  ("panc", CType.charPtr),
  ("pany", CType.charPtr),
  ("pans", CType.charPtr),
  ("bioa", CType.charPtr),
  ("biok", CType.charPtr),
  ("biok2", CType.charPtr),
  ("editdate", CType.untyped),
  ("ver", CType.charPtr)
]

/-- Field list of `Physical_properties` transcribed from `types.h` (name, declared C type). -/
def Physical_properties_fields : List (String × CType) := [
  ("iso", CType.charPtr),
  ("id", CType.cint),
  ("hori", CType.cint),
  ("btop", CType.cint),
  ("bbot", CType.cint),
  ("sampleno", CType.charPtr),
  ("gravel", CType.untyped),
  ("s1", CType.untyped),
  ("s2", CType.untyped),
  ("s3", CType.untyped),
  ("s4", CType.untyped),
  ("s5", CType.untyped),
  ("tsa", CType.untyped),
  ("si1", CType.untyped),
  ("si2", CType.untyped),
  ("tsi", CType.untyped),
  ("clay", CType.untyped),
  ("dispcl", CType.untyped),
  ("bulk", CType.untyped),
  ("pf0", CType.untyped),
  ("pf1", CType.untyped),
  ("pf15", CType.untyped),
  ("pf2", CType.untyped),
  ("pf23", CType.untyped),
  ("pf27", CType.untyped),
  ("pf34", CType.untyped),
  ("pf42", CType.untyped),
  ("cole", CType.untyped),
  ("ssa", CType.untyped),
  ("physrem", CType.charPtr),
  ("editdate", CType.untyped),
  ("verified", CType.charPtr),
  ("codetype", CType.charPtr),
  ("type", CType.charPtr)
]

/-- Field list of `Sand_mineralogy_general` transcribed from `types.h` (name, declared C type). -/
def Sand_mineralogy_general_fields : List (String × CType) := [
  ("iso", CType.charPtr),
  ("id", CType.cint),
  ("hori", CType.cint),
  ("top", CType.cint),
  ("bot", CType.cint),
  ("sampleno", CType.charPtr),
  ("heavy", CType.untyped),
  ("light", CType.untyped),
  ("quartz", CType.cint),
  ("k_feldspar", CType.cint),
  ("plagioclas", CType.cint),
  ("rest", CType.cint),
  ("opaque", CType.cint),
  ("sminrem", CType.charPtr),
  ("editdate", CType.untyped),
  ("verified", CType.charPtr)
]

/-- Field list of `Site_description` transcribed from `types.h` (name, declared C type). -/
def Site_description_fields : List (String × CType) := [
  ("iso", CType.charPtr),
  ("id", CType.cint),
  ("smonth", CType.untyped),
  ("syear", CType.cint),
  ("auth", CType.charPtr),
  ("loc", CType.charPtr),
  ("latns", CType.charPtr),
  ("latd", CType.cint),
  ("latm", CType.cint),
  ("lats", CType.cint),
  ("lonew", CType.charPtr),
  ("lond", CType.cint),
  ("lonm", CType.cint),
  ("lons", CType.cint),
  ("alt", CType.cint),
  ("clim", CType.charPtr),
  ("par", CType.charPtr),
  ("par2", CType.charPtr),
  ("mode", CType.charPtr),
  ("mode2", CType.charPtr),
  ("text", CType.charPtr),
  ("text2", CType.charPtr),
  ("depth", CType.cint),
  ("weat", CType.charPtr),
  ("weat2", CType.charPtr),
  ("rest1", CType.charPtr),
  ("rest2", CType.charPtr),
  ("parrem", CType.charPtr),
  ("lndreg", CType.charPtr),
  ("lndtop", CType.charPtr),
  ("phys", CType.charPtr),
  ("slp", CType.untyped),
  ("pos", CType.charPtr),
  ("slf", CType.charPtr),
  ("asp", CType.charPtr),
  ("knd", CType.charPtr),
  ("ptrn", CType.charPtr),
  ("var", CType.cint),
  ("rock", CType.charPtr),
  ("ston", CType.charPtr),
  ("stsi", CType.untyped),
  ("stsh", CType.charPtr),
  ("cra", CType.charPtr),
  ("sea", CType.charPtr),
  ("salt", CType.charPtr),
  ("alkali", CType.charPtr),
  ("sode", CType.cint),
  ("wake", CType.charPtr),
  ("wade", CType.cint),
  ("waup", CType.cint),
  ("walo", CType.cint),
  ("staup", CType.cint),
  ("stalo", CType.cint),
  ("stape", CType.charPtr),
  ("run", CType.charPtr),
  ("flfr", CType.charPtr),
  ("flna", CType.charPtr),
  ("drain", CType.charPtr),
  ("draini", CType.charPtr),
  ("moidu", CType.cint),
  ("moidl", CType.cint),
  ("moimu", CType.cint),
  ("moiml", CType.cint),
  ("moiwu", CType.cint),
  ("moiwl", CType.cint),
  ("ert", CType.charPtr),
  ("ert2", CType.charPtr),
  ("erd", CType.charPtr),
  ("erd2", CType.charPtr),
  ("aggr", CType.charPtr),
  ("mass", CType.charPtr),
  ("lut", CType.charPtr),
  ("crop", CType.charPtr),
  ("irr", CType.charPtr),
  ("rot", CType.charPtr),
  ("imp", CType.charPtr),
  ("vet", CType.charPtr),
  ("ves", CType.charPtr),
  ("ved", CType.charPtr),
  ("adpc", CType.untyped),
  ("admm", CType.untyped),
  ("comname", CType.charPtr),
  ("descr", CType.charPtr),
  ("remarks", CType.charPtr),
  ("editdate", CType.untyped),
  ("verified", CType.charPtr)
]

/-- Field list of `Soluble_salts` transcribed from `types.h` (name, declared C type). -/
def Soluble_salts_fields : List (String × CType) := [
  ("iso", CType.charPtr),
  ("id", CType.cint),
  ("hori", CType.cint),
  ("top", CType.cint),
  ("bot", CType.cint),
  ("sampleno", CType.charPtr),
  ("cas", CType.untyped),
  ("mgs", CType.untyped),
  ("nas", CType.untyped),
  ("ks", CType.untyped),
  ("sumcat", CType.untyped),
  ("co3", CType.untyped),
  ("hco3", CType.untyped),
  ("cl", CType.untyped),
  ("so4", CType.untyped),
  ("no3", CType.untyped),
  ("sumani", CType.untyped),
  ("ec5", CType.untyped),
  ("ece", CType.untyped),
  ("phs", CType.untyped),
  ("sar", CType.untyped),
  ("saltrem", CType.charPtr),
  ("editdate", CType.untyped),
  ("verified", CType.charPtr),
  ("type", CType.charPtr)
]

/-- Field list of `Trace_elements` transcribed from `types.h` (name, declared C type). -/
def Trace_elements_fields : List (String × CType) := [
  ("iso", CType.charPtr),
  ("id", CType.clong),
  ("top", CType.clong),
  ("bott", CType.clong),
  ("sampleno", CType.charPtr),
  ("as", CType.untyped),
  ("ba", CType.clong),
  ("cd", CType.untyped),
  ("co", CType.clong),
  ("cr", CType.clong),
  ("cu", CType.clong),
  ("mn", CType.clong),
  ("mo", CType.untyped),
  ("ni", CType.clong),
  ("pb", CType.clong),
  ("sr", CType.clong),
  ("v", CType.clong),
  ("zn", CType.clong),
  ("te_rem", CType.charPtr),
  ("date", CType.untyped),
  ("ver", CType.charPtr)
]

/-- Field list of `Elemental_composition_soil` transcribed from `types.h` (name, declared C type). -/
def Elemental_composition_soil_fields : List (String × CType) := [
  ("iso", CType.charPtr),
  ("id", CType.cint),
  ("hori", CType.cint),
  ("top", CType.cint),
  ("bot", CType.cint),
  ("sampleno", CType.charPtr),
  ("sio2", CType.untyped),
  ("al2o3", CType.untyped),
  ("fe2o3", CType.untyped),
  ("cao", CType.untyped),
  ("mgo", CType.untyped),
  ("k2o", CType.untyped),
  ("na2o", CType.untyped),
  ("tio2", CType.untyped),
  ("mno2", CType.untyped),
  ("p2o5", CType.untyped),
  ("ign", CType.untyped),
  ("total", CType.untyped),
  ("ratiosial", CType.untyped),
  ("ratiosife", CType.untyped),
  ("ratiosir", CType.untyped),
  ("ratioalfe", CType.untyped),
  ("soelrem", CType.charPtr),
  ("editdate", CType.untyped),
  ("verified", CType.charPtr),
  ("codetype", CType.charPtr)
]

/-- Field list of `Elemental_composition_clay` transcribed from `types.h` (name, declared C type). -/
def Elemental_composition_clay_fields : List (String × CType) := [
  ("iso", CType.charPtr),
  ("id", CType.cint),
  ("hori", CType.cint),
  ("top", CType.cint),
  ("bot", CType.cint),
  ("sampleno", CType.charPtr),
  ("sio2", CType.untyped),
  ("al2o3", CType.untyped),
  ("fe2o3", CType.untyped),
  ("cao", CType.untyped),
  ("mgo", CType.untyped),
  ("k2o", CType.untyped),
  ("na2o", CType.untyped),
  ("tio2", CType.untyped),
  ("mno2", CType.untyped),
  ("p2o5", CType.untyped),
  ("ign", CType.untyped),
  ("total", CType.untyped),
  ("ratiosial", CType.untyped),
  ("ratiosife", CType.untyped),
  ("ratiosir", CType.untyped),
  ("ratioalfe", CType.untyped),
  ("soelrem", CType.charPtr),
  ("editdate", CType.untyped),
  ("verified", CType.charPtr)
]

/-- Field list of `Profile-climate_station_link` transcribed from `types.h` (name, declared C type). -/
def Profile_climate_station_link_fields : List (String × CType) := [
  ("iso_p", CType.charPtr),
  ("id_p", CType.cint),
  ("iso_s", CType.charPtr),
  ("id_s", CType.cint),
  ("dist", CType.cint),
  ("dir", CType.charPtr),
  ("ref", CType.charPtr),
  ("editdate", CType.untyped)
]

/-- Field list of `ICRAF sample codes` transcribed from `types.h` (name, declared C type). -/
def ICRAF_sample_codes_fields : List (String × CType) := [
  ("batch and labid", CType.charPtr),
  ("sampleno", CType.charPtr),
  ("country name", CType.charPtr),
  ("plotcode", CType.charPtr),
  ("hori", CType.untyped),
  ("btop", CType.untyped),
  ("bbot", CType.untyped),
  ("dsed", CType.untyped)
]

/-- Field list of `Country` transcribed from `types.h` (name, declared C type). -/
def Country_fields : List (String × CType) := [
  ("iso", CType.charPtr),
  ("country", CType.charPtr),
  ("region", CType.charPtr)
]

/-- Names of the fields in a field list. -/
def fieldNames (fs : List (String × CType)) : List String :=
  fs.map Prod.fst

/-- Value of field `f` in record `r`, if present. -/
def fieldVal (r : Record) (f : String) : Option Value :=
  (r.find? (fun p => p.1 = f)).map Prod.snd

/-- Does a runtime value match a declared C type?  `char *` columns hold
strings, `int`/`long` columns hold integers; a column declared without a
type in the generated header accepts either. -/
def typeMatches : CType → Value → Bool
  | CType.charPtr, Value.vstr _ => true
  | CType.cint, Value.vint _ => true
  | CType.clong, Value.vint _ => true
  | CType.untyped, _ => true
  | _, _ => false

/-- Modelled from the spec: the Schema Registry (section 4.1), which the
repository does not implement.  It declares, per record kind, the field
list (taken verbatim from `types.h`), the primary-key fields, the
foreign-key references (target kind and local fields holding the target's
key), and, for the depth-interval kinds, the names of the `top`/`bot`
columns used by the overlap check. -/
structure Registry where
  fieldsOf : String → List (String × CType)
  keyFields : String → List String
  refsOf : String → List (String × List String)
  depthPair : String → Option (String × String)

/-- Modelled from the spec: the concrete registry for the soil database,
populated from the `types.h` field lists and the key shapes of
specification section 3. -/
def soilRegistry : Registry where
  fieldsOf k :=
    if k = "Chemical_properties" then Chemical_properties_fields
    else if k = "Clay_mineralogy" then Clay_mineralogy_fields
    else if k = "Climate_Data" then Climate_Data_fields
    else if k = "Climate_Data_Big" then Climate_Data_Big_fields
    else if k = "Climate_Station" then Climate_Station_fields
    else if k = "ASD Spectra" then ASD_Spectra_fields
    else if k = "Morphology_I" then Morphology_I_fields
    else if k = "Morphology_II" then Morphology_II_fields
    else if k = "Physical_properties" then Physical_properties_fields
    else if k = "Sand_mineralogy_general" then Sand_mineralogy_general_fields
    else if k = "Site_description" then Site_description_fields
    else if k = "Soluble_salts" then Soluble_salts_fields
    else if k = "Trace_elements" then Trace_elements_fields
    else if k = "Elemental_composition_soil" then Elemental_composition_soil_fields
    else if k = "Elemental_composition_clay" then Elemental_composition_clay_fields
    else if k = "Profile-climate_station_link" then Profile_climate_station_link_fields
    else if k = "ICRAF sample codes" then ICRAF_sample_codes_fields
    else if k = "Country" then Country_fields
    else []
  keyFields k :=
    if k = "Site_description" then ["iso", "id"]
    else if k = "Climate_Data" then ["iso", "id"]
    else if k = "Climate_Data_Big" then ["iso", "id"]
    else if k = "Climate_Station" then ["iso", "id"]
    else if k = "Morphology_I" then ["iso", "id", "hori"]
    else if k = "Morphology_II" then ["iso", "id", "hori"]
    else if k = "Physical_properties" then ["iso", "id", "hori"]
    else if k = "Chemical_properties" then ["iso", "id", "hori", "btop", "bbot"]
    else if k = "Clay_mineralogy" then ["iso", "id", "hori", "top", "bot"]
    else if k = "Elemental_composition_soil" then ["iso", "id", "hori", "top", "bot"]
    else if k = "Elemental_composition_clay" then ["iso", "id", "hori", "top", "bot"]
    else if k = "Soluble_salts" then ["iso", "id", "hori", "top", "bot"]
    else if k = "Sand_mineralogy_general" then ["iso", "id", "hori", "top", "bot"]
    else if k = "Trace_elements" then ["iso", "id", "top", "bott"]
    else if k = "ASD Spectra" then ["batch_labid"]
    else if k = "ICRAF sample codes" then ["sampleno"]
    else if k = "Profile-climate_station_link" then ["iso_p", "id_p", "iso_s", "id_s"]
    else if k = "Country" then ["iso"]
    else []
  refsOf k :=
    if k = "Morphology_I" then [("Site_description", ["iso", "id"])]
    else if k = "Morphology_II" then [("Site_description", ["iso", "id"])]
    else if k = "Climate_Data" then [("Site_description", ["iso", "id"])]
    else if k = "Physical_properties" then [("Morphology_I", ["iso", "id", "hori"])]
    else if k = "Chemical_properties" then [("Morphology_I", ["iso", "id", "hori"])]
    else if k = "Clay_mineralogy" then [("Morphology_I", ["iso", "id", "hori"])]
    else if k = "Elemental_composition_soil" then [("Morphology_I", ["iso", "id", "hori"])]
    else if k = "Elemental_composition_clay" then [("Morphology_I", ["iso", "id", "hori"])]
    else if k = "Soluble_salts" then [("Morphology_I", ["iso", "id", "hori"])]
    else if k = "Sand_mineralogy_general" then [("Morphology_I", ["iso", "id", "hori"])]
    else if k = "Profile-climate_station_link" then
      [("Site_description", ["iso_p", "id_p"]), ("Climate_Station", ["iso_s", "id_s"])]
    else []
  depthPair k :=
    if k = "Chemical_properties" then some ("btop", "bbot")
    else if k = "Clay_mineralogy" then some ("top", "bot")
    else if k = "Elemental_composition_soil" then some ("top", "bot")
    else if k = "Elemental_composition_clay" then some ("top", "bot")
    else if k = "Soluble_salts" then some ("top", "bot")
    else none

/-- The key of record `r` under kind `k`: the values of its declared key
fields (a missing field contributes `none`). -/
def keyOf (reg : Registry) (k : String) (r : Record) : List (Option Value) :=
  (reg.keyFields k).map (fieldVal r)

/-- Modelled from the spec: the Record Store (section 4.2), which the
repository does not implement.  It holds `(kind, record)` pairs in
insertion order. -/
structure Store where
  recs : List (String × Record)
deriving DecidableEq, Repr

/-- Record validity: every field present in the record is declared for its
kind in the registry, with a value matching the declared C type.  (Fields
may be absent, modelling NULL columns.) -/
def validRecord (reg : Registry) (k : String) (r : Record) : Bool :=
  r.all (fun p =>
    match (reg.fieldsOf k).find? (fun d => d.1 = p.1) with
    | some d => typeMatches d.2 p.2
    | none => false)

/-- Does a record of kind `tk` with key `key` exist in the store?  This is
the resolver's `get`-style membership test. -/
def resolves (reg : Registry) (s : Store) (tk : String) (key : List (Option Value)) : Bool :=
  s.recs.any (fun p => p.1 = tk ∧ keyOf reg tk p.2 = key)

/-- Do two records of depth-interval kind `k` sharing `(iso, id, hori)`
have intersecting half-open depth intervals `[top, bot)`? -/
def overlaps (reg : Registry) (k : String) (r₁ r₂ : Record) : Bool :=
  match reg.depthPair k with
  | none => false
  | some (tf, bf) =>
    (fieldVal r₁ "iso" = fieldVal r₂ "iso" ∧
     fieldVal r₁ "id" = fieldVal r₂ "id" ∧
     fieldVal r₁ "hori" = fieldVal r₂ "hori") &&
    match fieldVal r₁ tf, fieldVal r₁ bf, fieldVal r₂ tf, fieldVal r₂ bf with
    | some (Value.vint t₁), some (Value.vint b₁),
      some (Value.vint t₂), some (Value.vint b₂) => max t₁ t₂ < min b₁ b₂
    | _, _, _, _ => false

/-- Modelled from the spec: `insert(kind, record)` (sections 4.2 and 4.3).
Checks, in order: key uniqueness (`DuplicateKeyError`), declared field
types (`TypeMismatchError`), reference resolution
(`DanglingReferenceError`), and depth-interval disjointness
(`OverlappingIntervalError`); on success the record is appended and
becomes visible to subsequent lookups.  Any failure returns the error and
leaves the store unchanged (atomic per record). -/
def RecordStore.insert (reg : Registry) (s : Store) (k : String) (r : Record) : Except Err Store :=
  if s.recs.any (fun p => p.1 = k ∧ keyOf reg k p.2 = keyOf reg k r) then
    Except.error Err.DuplicateKeyError
  else if ¬ validRecord reg k r then
    Except.error Err.TypeMismatchError
  else if (reg.refsOf k).any (fun tl => ¬ resolves reg s tl.1 (tl.2.map (fieldVal r))) then
    Except.error Err.DanglingReferenceError
  else if s.recs.any (fun p => p.1 = k ∧ overlaps reg k r p.2) then
    Except.error Err.OverlappingIntervalError
  else
    Except.ok ⟨s.recs ++ [(k, r)]⟩

/-- Modelled from the spec: `get(kind, key)` (section 4.2) — the record
with that key, or `NotFoundError`. -/
def RecordStore.get (reg : Registry) (s : Store) (k : String) (key : List (Option Value)) :
    Except Err Record :=
  match s.recs.find? (fun p => p.1 = k ∧ keyOf reg k p.2 = key) with
  | some p => Except.ok p.2
  | none => Except.error Err.NotFoundError

/-- A reference key: the kind and key tuple a `(kind, key)` pair denotes. -/
abbrev RefKey := String × List (Option Value)

/-- The reference keys a record points at, per its kind's declared
references. -/
def refKeysOf (reg : Registry) (k : String) (r : Record) : List RefKey :=
  (reg.refsOf k).map (fun tl => (tl.1, tl.2.map (fieldVal r)))

/-- Does record `(k, r)` reference one of the keys in `victims`? -/
def refersToAny (reg : Registry) (k : String) (r : Record) (victims : List RefKey) : Bool :=
  (refKeysOf reg k r).any (fun rk => rk ∈ victims)

/-- The keys of store records that directly reference a key in `victims`
and are not already in `victims`. -/
def newDependents (reg : Registry) (s : Store) (victims : List RefKey) : List RefKey :=
  (s.recs.filterMap (fun p =>
    if refersToAny reg p.1 p.2 victims ∧ (p.1, keyOf reg p.1 p.2) ∉ victims then
      some (p.1, keyOf reg p.1 p.2)
    else none)).dedup

/-- One step of the dependent-closure computation with `fuel` steps left. -/
def closureIter (reg : Registry) (s : Store) : Nat → List RefKey → List RefKey
  | 0, victims => victims
  | Nat.succ fuel, victims =>
    match newDependents reg s victims with
    | [] => victims
    | ds => closureIter reg s fuel (victims ++ ds)

/-- Modelled from the spec: the transitive set of keys depending on
`(k, key)`, computed by the Reference Resolver's reverse index
(section 4.3).  `s.recs.length + 1` iterations suffice since every
iteration adds at least one key of a store record. -/
def cascadeSet (reg : Registry) (s : Store) (k : String) (key : List (Option Value)) :
    List RefKey :=
  closureIter reg s (s.recs.length + 1) [(k, key)]

/-- Modelled from the spec: `delete(kind, key)` (section 4.2).  Fails with
`NotFoundError` if the key is absent; without cascade it fails with
`ReferencedError` when other records still reference the key; with
cascade it removes the record and all transitively dependent records and
returns the full set of removed keys. -/
def RecordStore.delete (reg : Registry) (s : Store) (k : String) (key : List (Option Value))
    (cascade : Bool) : Except Err (Store × List RefKey) :=
  if ¬ resolves reg s k key then Except.error Err.NotFoundError
  else if cascade then
    let victims := cascadeSet reg s k key
    Except.ok (⟨s.recs.filter (fun p => (p.1, keyOf reg p.1 p.2) ∉ victims)⟩,
               victims.filter (fun rk => resolves reg s rk.1 rk.2))
  else if s.recs.any (fun p => refersToAny reg p.1 p.2 [(k, key)]) then
    Except.error Err.ReferencedError
  else
    Except.ok (⟨s.recs.filter (fun p => ¬ (p.1 = k ∧ keyOf reg k p.2 = key))⟩, [(k, key)])

/-- The `hori` field of a horizon record, as an integer (0 when absent,
which well-formed horizon records never are). -/
def horiVal (r : Record) : Int :=
  match fieldVal r "hori" with
  | some (Value.vint n) => n
  | _ => 0

/-- Comparison of horizon records by their `hori` field. -/
def horiLe (r₁ r₂ : Record) : Prop := horiVal r₁ ≤ horiVal r₂

instance : DecidableRel horiLe := fun _ _ => inferInstanceAs (Decidable (_ ≤ _))

/-- The horizon (`Morphology_I`) records of profile `(iso, id)` in store
order. -/
def horizonRecsOf (s : Store) (iso : String) (id : Int) : List Record :=
  s.recs.filterMap (fun p =>
    if p.1 = "Morphology_I" ∧ fieldVal p.2 "iso" = some (Value.vstr iso) ∧
       fieldVal p.2 "id" = some (Value.vint id) then some p.2 else none)

/-- Modelled from the spec: `horizonsOf(iso, id)` (section 4.4) — the
profile's horizon records in ascending `hori` order, or `NotFoundError`
when the profile does not exist. -/
def horizonsOf (reg : Registry) (s : Store) (iso : String) (id : Int) :
    Except Err (List Record) :=
  if resolves reg s "Site_description" [some (Value.vstr iso), some (Value.vint id)] then
    Except.ok ((horizonRecsOf s iso id).insertionSort horiLe)
  else Except.error Err.NotFoundError

/-- The `top` (or `btop`) field of a depth-interval record, as an
integer. -/
def topVal (reg : Registry) (k : String) (r : Record) : Int :=
  match fieldVal r (match reg.depthPair k with | some tb => tb.1 | none => "top") with
  | some (Value.vint n) => n
  | _ => 0

/-- Comparison of depth-interval records of kind `k` by their top depth. -/
def topLe (reg : Registry) (k : String) (r₁ r₂ : Record) : Prop :=
  topVal reg k r₁ ≤ topVal reg k r₂

instance (reg : Registry) (k : String) : DecidableRel (topLe reg k) :=
  fun _ _ => inferInstanceAs (Decidable (_ ≤ _))

/-- Modelled from the spec: `measurementsOf(iso, id, hori, measurementKind)`
(section 4.4) — the depth-interval records of one kind for a horizon,
ordered by `top`, or `NotFoundError` when the horizon does not exist. -/
def measurementsOf (reg : Registry) (s : Store) (iso : String) (id hori : Int)
    (mk : String) : Except Err (List Record) :=
  if resolves reg s "Morphology_I"
      [some (Value.vstr iso), some (Value.vint id), some (Value.vint hori)] then
    Except.ok ((s.recs.filterMap (fun p =>
      if p.1 = mk ∧ fieldVal p.2 "iso" = some (Value.vstr iso) ∧
         fieldVal p.2 "id" = some (Value.vint id) ∧
         fieldVal p.2 "hori" = some (Value.vint hori) then some p.2
      else none)).insertionSort (topLe reg mk))
  else Except.error Err.NotFoundError

/-- Modelled from the spec: `spectrumFor(sampleno)` (section 4.4) — the
single Spectral Scan record correlated to a sample through the
`ICRAF sample codes` table (`sampleno` ↔ `batch and labid` ↔ the scan's
`batch_labid`), or `NotFoundError` if no scan was ingested for that
sample. -/
def spectrumFor (_reg : Registry) (s : Store) (sn : String) : Except Err Record :=
  match s.recs.find? (fun p => p.1 = "ICRAF sample codes" ∧
      fieldVal p.2 "sampleno" = some (Value.vstr sn)) with
  | none => Except.error Err.NotFoundError
  | some c =>
    match s.recs.find? (fun p => p.1 = "ASD Spectra" ∧
        fieldVal p.2 "batch_labid" = fieldVal c.2 "batch and labid") with
    | none => Except.error Err.NotFoundError
    | some p => Except.ok p.2

/-- Modelled from the spec: `stationsNear(iso, id)` (section 4.4) — the
climate stations linked to a profile via the Profile–Station Link table,
each annotated with the link's `dist` and `dir`, or `NotFoundError` when
the profile does not exist.  `stationRowFor` resolves one link row to its
station record annotated with the link's `dist` and `dir`. -/
def stationRowFor (s : Store) (link : Record) :
    Option (Record × Option Value × Option Value) :=
  (s.recs.find? (fun q => q.1 = "Climate_Station" ∧
      fieldVal q.2 "iso" = fieldVal link "iso_s" ∧
      fieldVal q.2 "id" = fieldVal link "id_s")).map
    (fun q => (q.2, fieldVal link "dist", fieldVal link "dir"))

def stationsNear (reg : Registry) (s : Store) (iso : String) (id : Int) :
    Except Err (List (Record × Option Value × Option Value)) :=
  if resolves reg s "Site_description" [some (Value.vstr iso), some (Value.vint id)] then
    Except.ok (s.recs.filterMap (fun p =>
      if p.1 = "Profile-climate_station_link" ∧
         fieldVal p.2 "iso_p" = some (Value.vstr iso) ∧
         fieldVal p.2 "id_p" = some (Value.vint id) then stationRowFor s p.2
      else none))
  else Except.error Err.NotFoundError

/-- Strict comparison of horizon records by their `hori` field. -/
def horiLt (r₁ r₂ : Record) : Prop := horiVal r₁ < horiVal r₂

instance : IsTotal Record horiLe := ⟨fun a b => le_total (horiVal a) (horiVal b)⟩

instance : IsTrans Record horiLe := ⟨fun _ _ _ h₁ h₂ => le_trans h₁ h₂⟩

instance : IsAntisymm Record horiLt := ⟨fun _ _ h₁ h₂ => absurd h₂ (lt_asymm h₁)⟩

/-- The Lean carrier type of a declared C type: `char *` columns hold
strings, `int`/`long` columns hold integers, and a column declared with no
type in the generated header can hold either kind of value. -/
def CarrierOf : CType → Type
  | CType.charPtr => String
  | CType.cint => Int
  | CType.clong => Int
  | CType.untyped => Value

/-- The record type denoted by a field list: the right-nested product of
its fields' carrier types. -/
def RecordTypeOf : List (String × CType) → Type
  | [] => PUnit
  | f :: fs => CarrierOf f.2 × RecordTypeOf fs

/-- Sample profile record for `(iso="KE", id=1)`. -/
def siteKE1 : Record := [("iso", Value.vstr "KE"), ("id", Value.vint 1)]

/-- Sample horizon record `(KE, 1, hori)`. -/
def horKE1 (hori : Int) : Record :=
  [("iso", Value.vstr "KE"), ("id", Value.vint 1), ("hori", Value.vint hori)]

/-- Sample `Clay_mineralogy` depth-interval record for horizon
`(KE, 1, 1)` with depth interval `[t, b)`. -/
def clayKE11 (t b : Int) : Record :=
  [("iso", Value.vstr "KE"), ("id", Value.vint 1), ("hori", Value.vint 1),
   ("top", Value.vint t), ("bot", Value.vint b)]

/-- Sample store: one vocabulary row, the profile `(KE, 1)`, two horizons,
and one depth-interval record on horizon 1. -/
def demoStore : Store :=
  ⟨[("Country", [("iso", Value.vstr "KE")]),
    ("Site_description", siteKE1),
    ("Morphology_I", horKE1 1),
    ("Morphology_I", horKE1 2),
    ("Clay_mineralogy", clayKE11 10 20)]⟩

/-- Key of the sample profile `(KE, 1)`. -/
def siteKE1Key : List (Option Value) := [some (Value.vstr "KE"), some (Value.vint 1)]

theorem insert_ok_dest (reg : Registry) (s s' : Store) (k : String) (r : Record)
    (h : RecordStore.insert reg s k r = Except.ok s') :
    s.recs.any (fun p => p.1 = k ∧ keyOf reg k p.2 = keyOf reg k r) = false ∧
    s' = ⟨s.recs ++ [(k, r)]⟩ := by
  unfold RecordStore.insert at h
  split_ifs at h with h₁ h₂ h₃ h₄
  injection h with h₅
  exact ⟨by simpa using h₁, h₅.symm⟩

theorem get_append_last (reg : Registry) (s : Store) (k : String) (r : Record)
    (hdup : s.recs.any (fun p => p.1 = k ∧ keyOf reg k p.2 = keyOf reg k r) = false) :
    RecordStore.get reg ⟨s.recs ++ [(k, r)]⟩ k (keyOf reg k r) = Except.ok r := by
  unfold RecordStore.get
  have hnone : s.recs.find?
      (fun p => decide (p.1 = k ∧ keyOf reg k p.2 = keyOf reg k r)) = none := by
    rw [List.find?_eq_none]
    intro x hx
    simpa using List.any_eq_false.mp hdup x hx
  rw [List.find?_append, hnone]
  simp [List.find?]

/-- C1: for every record kind `K` and every valid record `r` of kind `K`,
a successful `insert(K, r)` followed by `get(K, key(r))` returns a value
equal to `r` (insert/get round-trip). -/
theorem insert_get_roundtrip (reg : Registry) (s s' : Store) (k : String) (r : Record)
    (h : RecordStore.insert reg s k r = Except.ok s') :
    RecordStore.get reg s' k (keyOf reg k r) = Except.ok r := by
  obtain ⟨hdup, rfl⟩ := insert_ok_dest reg s s' k r h
  exact get_append_last reg s k r hdup

/-- Witness for C1 at a concrete input: inserting the profile `(KE, 1)`
into the empty store and reading it back. -/
theorem insert_get_roundtrip_witness :
    RecordStore.get soilRegistry ⟨[("Site_description", siteKE1)]⟩ "Site_description"
      (keyOf soilRegistry "Site_description" siteKE1) = Except.ok siteKE1 :=
  insert_get_roundtrip soilRegistry ⟨[]⟩ ⟨[("Site_description", siteKE1)]⟩
    "Site_description" siteKE1 rfl

/-- C2: after a successful `insert(K, r₁)`, inserting any `r₂` of the same
kind with an equal key fails with `DuplicateKeyError`, and the store still
contains `r₁` unchanged under that key. -/
theorem duplicate_insert_rejected (reg : Registry) (s s' : Store) (k : String)
    (r₁ r₂ : Record) (hk : keyOf reg k r₁ = keyOf reg k r₂)
    (h : RecordStore.insert reg s k r₁ = Except.ok s') :
    RecordStore.insert reg s' k r₂ = Except.error Err.DuplicateKeyError ∧
    RecordStore.get reg s' k (keyOf reg k r₂) = Except.ok r₁ := by
  obtain ⟨hdup, rfl⟩ := insert_ok_dest reg s s' k r₁ h
  constructor
  · have hc : (s.recs ++ [(k, r₁)]).any
        (fun p => decide (p.1 = k ∧ keyOf reg k p.2 = keyOf reg k r₂)) = true := by
      have h2 : [(k, r₁)].any
          (fun p => decide (p.1 = k ∧ keyOf reg k p.2 = keyOf reg k r₂)) = true := by
        simp [hk]
      rw [List.any_append, h2, Bool.or_true]
    unfold RecordStore.insert
    simp only [hc]
    simp
  · rw [← hk]
    exact get_append_last reg s k r₁ hdup

/-- Witness for C2 at a concrete input: inserting the profile `(KE, 1)`
twice. -/
theorem duplicate_insert_rejected_witness :
    RecordStore.insert soilRegistry ⟨[("Site_description", siteKE1)]⟩ "Site_description" siteKE1 =
      Except.error Err.DuplicateKeyError ∧
    RecordStore.get soilRegistry ⟨[("Site_description", siteKE1)]⟩ "Site_description"
      (keyOf soilRegistry "Site_description" siteKE1) = Except.ok siteKE1 :=
  duplicate_insert_rejected soilRegistry ⟨[]⟩ ⟨[("Site_description", siteKE1)]⟩
    "Site_description" siteKE1 siteKE1 rfl rfl

/-- Sample `Morphology_I` record whose `(iso, id)` fields are `(KE, 99)`. -/
def morKE99 : Record :=
  [("iso", Value.vstr "KE"), ("id", Value.vint 99), ("hori", Value.vint 1)]

/-- C3: for every store state in which no `Site_description` record with
key `(iso="KE", id=99)` exists, inserting a (valid, fresh-keyed)
`Morphology_I` record whose `(iso, id)` fields equal `("KE", 99)` fails
with `DanglingReferenceError`; since `insert` returns only the error in
that case, the store is left unchanged (atomic per record). -/
theorem dangling_reference_insert_rejected (s : Store) (r : Record)
    (hiso : fieldVal r "iso" = some (Value.vstr "KE"))
    (hid : fieldVal r "id" = some (Value.vint 99))
    (hnosite : resolves soilRegistry s "Site_description"
      [some (Value.vstr "KE"), some (Value.vint 99)] = false)
    (hnodup : s.recs.any (fun p => p.1 = "Morphology_I" ∧
      keyOf soilRegistry "Morphology_I" p.2 = keyOf soilRegistry "Morphology_I" r) = false)
    (hvalid : validRecord soilRegistry "Morphology_I" r = true) :
    RecordStore.insert soilRegistry s "Morphology_I" r =
      Except.error Err.DanglingReferenceError := by
  unfold RecordStore.insert
  have hrefs : ((soilRegistry.refsOf "Morphology_I").any fun tl =>
      decide (¬ resolves soilRegistry s tl.1 (List.map (fieldVal r) tl.2) = true)) = true := by
    have hr : soilRegistry.refsOf "Morphology_I" = [("Site_description", ["iso", "id"])] := rfl
    rw [hr]
    simp [hiso, hid, hnosite]
  rw [hnodup, hvalid, hrefs]
  simp

/-- Witness for C3 at a concrete input: a store holding only the profile
`(KE, 1)` rejects a `Morphology_I` record referencing `(KE, 99)`. -/
theorem dangling_reference_insert_rejected_witness :
    RecordStore.insert soilRegistry ⟨[("Site_description", siteKE1)]⟩ "Morphology_I" morKE99 =
      Except.error Err.DanglingReferenceError :=
  dangling_reference_insert_rejected ⟨[("Site_description", siteKE1)]⟩ morKE99
    rfl rfl (by decide) (by decide) (by decide)

theorem any_key_false (l : List (String × Record)) (k : String)
    (h : ∀ p ∈ l, p.1 ≠ k) (key₁ : List (Option Value)) (reg : Registry) :
    (l.any fun p => decide (p.1 = k ∧ keyOf reg k p.2 = key₁)) = false := by
  rw [List.any_eq_false]
  intro p hp hx
  exact h p hp (of_decide_eq_true hx).1

theorem any_overlap_false (l : List (String × Record)) (k : String)
    (h : ∀ p ∈ l, p.1 ≠ k) (r : Record) (reg : Registry) :
    (l.any fun p => decide (p.1 = k ∧ overlaps reg k r p.2 = true)) = false := by
  rw [List.any_eq_false]
  intro p hp hx
  exact h p hp (of_decide_eq_true hx).1

theorem resolves_append (reg : Registry) (s : Store) (l : List (String × Record))
    (tk : String) (key : List (Option Value)) (h : resolves reg s tk key = true) :
    resolves reg ⟨s.recs ++ l⟩ tk key = true := by
  unfold resolves at h ⊢
  rw [List.any_append, h, Bool.true_or]

theorem refs_clay_false (r : Record) (s' : Store)
    (hm : List.map (fieldVal r) ["iso", "id", "hori"] =
      [some (Value.vstr "KE"), some (Value.vint 1), some (Value.vint 1)])
    (hres : resolves soilRegistry s' "Morphology_I"
      [some (Value.vstr "KE"), some (Value.vint 1), some (Value.vint 1)] = true) :
    ((soilRegistry.refsOf "Clay_mineralogy").any fun tl =>
      decide (¬ resolves soilRegistry s' tl.1 (List.map (fieldVal r) tl.2) = true)) = false := by
  have hr : soilRegistry.refsOf "Clay_mineralogy" = [("Morphology_I", ["iso", "id", "hori"])] := rfl
  rw [hr]
  simp [hm, hres]

/-- C4: depth intervals are half-open `[top, bot)`: with the horizon
`(KE, 1, 1)` present and no prior `Clay_mineralogy` records, inserting the
depth-interval record `top=10, bot=20` succeeds; inserting `top=15,
bot=25` afterwards fails with `OverlappingIntervalError`, while inserting
`top=20, bot=30` succeeds. -/
theorem half_open_interval_overlap (s : Store)
    (hnoclay : ∀ p ∈ s.recs, p.1 ≠ "Clay_mineralogy")
    (hhor : resolves soilRegistry s "Morphology_I"
      [some (Value.vstr "KE"), some (Value.vint 1), some (Value.vint 1)] = true) :
    RecordStore.insert soilRegistry s "Clay_mineralogy" (clayKE11 10 20) =
      Except.ok ⟨s.recs ++ [("Clay_mineralogy", clayKE11 10 20)]⟩ ∧
    RecordStore.insert soilRegistry ⟨s.recs ++ [("Clay_mineralogy", clayKE11 10 20)]⟩
      "Clay_mineralogy" (clayKE11 15 25) = Except.error Err.OverlappingIntervalError ∧
    RecordStore.insert soilRegistry ⟨s.recs ++ [("Clay_mineralogy", clayKE11 10 20)]⟩
      "Clay_mineralogy" (clayKE11 20 30) =
      Except.ok ⟨s.recs ++ [("Clay_mineralogy", clayKE11 10 20),
                            ("Clay_mineralogy", clayKE11 20 30)]⟩ := by
  refine ⟨?_, ?_, ?_⟩
  · unfold RecordStore.insert
    rw [any_key_false s.recs "Clay_mineralogy" hnoclay
          (keyOf soilRegistry "Clay_mineralogy" (clayKE11 10 20)) soilRegistry,
        (by decide : validRecord soilRegistry "Clay_mineralogy" (clayKE11 10 20) = true),
        refs_clay_false (clayKE11 10 20) s rfl hhor,
        any_overlap_false s.recs "Clay_mineralogy" hnoclay (clayKE11 10 20) soilRegistry]
    simp
  · unfold RecordStore.insert
    have hd : ((s.recs ++ [("Clay_mineralogy", clayKE11 10 20)]).any fun p =>
        decide (p.1 = "Clay_mineralogy" ∧ keyOf soilRegistry "Clay_mineralogy" p.2 =
          keyOf soilRegistry "Clay_mineralogy" (clayKE11 15 25))) = false := by
      rw [List.any_append,
          any_key_false s.recs "Clay_mineralogy" hnoclay
            (keyOf soilRegistry "Clay_mineralogy" (clayKE11 15 25)) soilRegistry,
          (by decide : ([("Clay_mineralogy", clayKE11 10 20)].any fun p =>
            decide (p.1 = "Clay_mineralogy" ∧ keyOf soilRegistry "Clay_mineralogy" p.2 =
              keyOf soilRegistry "Clay_mineralogy" (clayKE11 15 25))) = false)]
      rfl
    have hov : ((s.recs ++ [("Clay_mineralogy", clayKE11 10 20)]).any fun p =>
        decide (p.1 = "Clay_mineralogy" ∧
          overlaps soilRegistry "Clay_mineralogy" (clayKE11 15 25) p.2 = true)) = true := by
      rw [List.any_append,
          any_overlap_false s.recs "Clay_mineralogy" hnoclay (clayKE11 15 25) soilRegistry,
          (by decide : ([("Clay_mineralogy", clayKE11 10 20)].any fun p =>
            decide (p.1 = "Clay_mineralogy" ∧
              overlaps soilRegistry "Clay_mineralogy" (clayKE11 15 25) p.2 = true)) = true)]
      rfl
    rw [hd, (by decide : validRecord soilRegistry "Clay_mineralogy" (clayKE11 15 25) = true),
        refs_clay_false (clayKE11 15 25) _ rfl
          (resolves_append soilRegistry s [("Clay_mineralogy", clayKE11 10 20)]
            "Morphology_I" [some (Value.vstr "KE"), some (Value.vint 1), some (Value.vint 1)] hhor),
        hov]
    simp
  · unfold RecordStore.insert
    have hd : ((s.recs ++ [("Clay_mineralogy", clayKE11 10 20)]).any fun p =>
        decide (p.1 = "Clay_mineralogy" ∧ keyOf soilRegistry "Clay_mineralogy" p.2 =
          keyOf soilRegistry "Clay_mineralogy" (clayKE11 20 30))) = false := by
      rw [List.any_append,
          any_key_false s.recs "Clay_mineralogy" hnoclay
            (keyOf soilRegistry "Clay_mineralogy" (clayKE11 20 30)) soilRegistry,
          (by decide : ([("Clay_mineralogy", clayKE11 10 20)].any fun p =>
            decide (p.1 = "Clay_mineralogy" ∧ keyOf soilRegistry "Clay_mineralogy" p.2 =
              keyOf soilRegistry "Clay_mineralogy" (clayKE11 20 30))) = false)]
      rfl
    have hov : ((s.recs ++ [("Clay_mineralogy", clayKE11 10 20)]).any fun p =>
        decide (p.1 = "Clay_mineralogy" ∧
          overlaps soilRegistry "Clay_mineralogy" (clayKE11 20 30) p.2 = true)) = false := by
      rw [List.any_append,
          any_overlap_false s.recs "Clay_mineralogy" hnoclay (clayKE11 20 30) soilRegistry,
          (by decide : ([("Clay_mineralogy", clayKE11 10 20)].any fun p =>
            decide (p.1 = "Clay_mineralogy" ∧
              overlaps soilRegistry "Clay_mineralogy" (clayKE11 20 30) p.2 = true)) = false)]
      rfl
    rw [hd, (by decide : validRecord soilRegistry "Clay_mineralogy" (clayKE11 20 30) = true),
        refs_clay_false (clayKE11 20 30) _ rfl
          (resolves_append soilRegistry s [("Clay_mineralogy", clayKE11 10 20)]
            "Morphology_I" [some (Value.vstr "KE"), some (Value.vint 1), some (Value.vint 1)] hhor),
        hov]
    simp

/-- Witness for C4 at a concrete input: the scenario run in a store
holding the profile `(KE, 1)` and the horizon `(KE, 1, 1)`. -/
theorem half_open_interval_overlap_witness :
    RecordStore.insert soilRegistry
      ⟨[("Site_description", siteKE1), ("Morphology_I", horKE1 1)]⟩
      "Clay_mineralogy" (clayKE11 10 20) =
      Except.ok ⟨[("Site_description", siteKE1), ("Morphology_I", horKE1 1)] ++
        [("Clay_mineralogy", clayKE11 10 20)]⟩ ∧
    RecordStore.insert soilRegistry
      ⟨[("Site_description", siteKE1), ("Morphology_I", horKE1 1)] ++
        [("Clay_mineralogy", clayKE11 10 20)]⟩
      "Clay_mineralogy" (clayKE11 15 25) = Except.error Err.OverlappingIntervalError ∧
    RecordStore.insert soilRegistry
      ⟨[("Site_description", siteKE1), ("Morphology_I", horKE1 1)] ++
        [("Clay_mineralogy", clayKE11 10 20)]⟩
      "Clay_mineralogy" (clayKE11 20 30) =
      Except.ok ⟨[("Site_description", siteKE1), ("Morphology_I", horKE1 1)] ++
        [("Clay_mineralogy", clayKE11 10 20), ("Clay_mineralogy", clayKE11 20 30)]⟩ :=
  half_open_interval_overlap ⟨[("Site_description", siteKE1), ("Morphology_I", horKE1 1)]⟩
    (by decide) (by decide)

/-- C5: `delete(kind, key)` on a key that other records still reference
fails with `ReferencedError` (and, the operation returning only the error,
removes nothing); `delete` with cascade explicitly requested removes the
record and all transitively dependent records — here the profile
`(KE, 1)`, its two horizons and the horizon's depth-interval record, but
not the unrelated vocabulary row — and returns the full set of removed
keys. -/
theorem delete_referenced_and_cascade :
    (∀ (reg : Registry) (s : Store) (k : String) (key : List (Option Value)),
      resolves reg s k key = true →
      (s.recs.any fun p => refersToAny reg p.1 p.2 [(k, key)]) = true →
      RecordStore.delete reg s k key false = Except.error Err.ReferencedError) ∧
    RecordStore.delete soilRegistry demoStore "Site_description" siteKE1Key true =
      Except.ok (⟨[("Country", [("iso", Value.vstr "KE")])]⟩,
        [("Site_description", [some (Value.vstr "KE"), some (Value.vint 1)]),
         ("Morphology_I", [some (Value.vstr "KE"), some (Value.vint 1), some (Value.vint 1)]),
         ("Morphology_I", [some (Value.vstr "KE"), some (Value.vint 1), some (Value.vint 2)]),
         ("Clay_mineralogy", [some (Value.vstr "KE"), some (Value.vint 1), some (Value.vint 1),
           some (Value.vint 10), some (Value.vint 20)])]) := by
  constructor
  · intro reg s k key h₁ h₂
    unfold RecordStore.delete
    rw [h₁, h₂]
    simp
  · rfl

/-- Witness for C5 at a concrete input: deleting the profile `(KE, 1)`
without cascade while its horizons still reference it. -/
theorem delete_referenced_and_cascade_witness :
    RecordStore.delete soilRegistry demoStore "Site_description" siteKE1Key false =
      Except.error Err.ReferencedError :=
  delete_referenced_and_cascade.1 soilRegistry demoStore "Site_description" siteKE1Key
    (by decide) (by decide)

theorem any_congr_perm {α : Type} {l₁ l₂ : List α} (h : l₁.Perm l₂) (f : α → Bool) :
    l₁.any f = l₂.any f := by
  rw [Bool.eq_iff_iff]
  simp only [List.any_eq_true]
  exact ⟨fun ⟨x, hx, hfx⟩ => ⟨x, h.mem_iff.mp hx, hfx⟩,
         fun ⟨x, hx, hfx⟩ => ⟨x, h.mem_iff.mpr hx, hfx⟩⟩

theorem resolves_congr_perm (reg : Registry) {s₁ s₂ : Store}
    (h : s₁.recs.Perm s₂.recs) (tk : String) (key : List (Option Value)) :
    resolves reg s₁ tk key = resolves reg s₂ tk key :=
  any_congr_perm h _

theorem sorted_lt_of_sorted_le_nodup {l : List Record}
    (hs : l.Sorted horiLe) (hn : (l.map horiVal).Nodup) : l.Sorted horiLt := by
  have hp : l.Pairwise (fun a b => horiVal a ≠ horiVal b) := by
    rw [List.Nodup, List.pairwise_map] at hn
    exact hn
  exact List.Pairwise.imp (fun h => lt_of_le_of_ne h.1 h.2) (List.Pairwise.and hs hp)

/-- C6: `horizonsOf(iso, id)` returns the profile's horizon records sorted
in ascending `hori` order (a permutation of the profile's horizon records
in the store), and — when the horizons' `hori` values are distinct, as key
uniqueness guarantees — its result is the same for every insertion order
of the store's records. -/
theorem horizonsOf_sorted_insertion_order_independent
    (s₁ s₂ : Store) (iso : String) (id : Int) (l : List Record) :
    (horizonsOf soilRegistry s₁ iso id = Except.ok l →
      l.Sorted horiLe ∧ l.Perm (horizonRecsOf s₁ iso id)) ∧
    (s₁.recs.Perm s₂.recs →
      ((horizonRecsOf s₁ iso id).map horiVal).Nodup →
      horizonsOf soilRegistry s₁ iso id = horizonsOf soilRegistry s₂ iso id) := by
  constructor
  · intro h
    unfold horizonsOf at h
    split_ifs at h with hres
    · injection h with h'
      subst h'
      exact ⟨List.sorted_insertionSort horiLe _, List.perm_insertionSort horiLe _⟩
  · intro hperm hnodup
    have hres : resolves soilRegistry s₁ "Site_description"
        [some (Value.vstr iso), some (Value.vint id)] =
      resolves soilRegistry s₂ "Site_description"
        [some (Value.vstr iso), some (Value.vint id)] :=
      resolves_congr_perm soilRegistry hperm _ _
    unfold horizonsOf
    by_cases hr : resolves soilRegistry s₁ "Site_description"
        [some (Value.vstr iso), some (Value.vint id)] = true
    · rw [if_pos hr, if_pos (hres ▸ hr)]
      have hp : (horizonRecsOf s₁ iso id).Perm (horizonRecsOf s₂ iso id) :=
        hperm.filterMap _
      have hps : ((horizonRecsOf s₁ iso id).insertionSort horiLe).Perm
          ((horizonRecsOf s₂ iso id).insertionSort horiLe) :=
        (List.perm_insertionSort _ _).trans (hp.trans (List.perm_insertionSort _ _).symm)
      have hn₁ : (((horizonRecsOf s₁ iso id).insertionSort horiLe).map horiVal).Nodup :=
        (((List.perm_insertionSort horiLe _).map horiVal).nodup_iff).mpr hnodup
      have hn₂ : (((horizonRecsOf s₂ iso id).insertionSort horiLe).map horiVal).Nodup :=
        ((hps.map horiVal).nodup_iff).mp hn₁
      have heq : (horizonRecsOf s₁ iso id).insertionSort horiLe =
          (horizonRecsOf s₂ iso id).insertionSort horiLe :=
        List.eq_of_perm_of_sorted hps
          (sorted_lt_of_sorted_le_nodup (List.sorted_insertionSort horiLe _) hn₁)
          (sorted_lt_of_sorted_le_nodup (List.sorted_insertionSort horiLe _) hn₂)
      rw [heq]
    · rw [if_neg hr, if_neg (by rw [← hres]; exact hr)]

/-- Witness for C6 at a concrete input: two stores holding the profile
`(KE, 1)` and its horizons 1 and 2 in different insertion orders. -/
theorem horizonsOf_sorted_insertion_order_independent_witness :
    ([horKE1 1, horKE1 2].Sorted horiLe ∧
      [horKE1 1, horKE1 2].Perm (horizonRecsOf
        ⟨[("Site_description", siteKE1), ("Morphology_I", horKE1 2),
          ("Morphology_I", horKE1 1)]⟩ "KE" 1)) ∧
    horizonsOf soilRegistry
      ⟨[("Site_description", siteKE1), ("Morphology_I", horKE1 2),
        ("Morphology_I", horKE1 1)]⟩ "KE" 1 =
    horizonsOf soilRegistry
      ⟨[("Morphology_I", horKE1 1), ("Site_description", siteKE1),
        ("Morphology_I", horKE1 2)]⟩ "KE" 1 :=
  ⟨(horizonsOf_sorted_insertion_order_independent
      ⟨[("Site_description", siteKE1), ("Morphology_I", horKE1 2),
        ("Morphology_I", horKE1 1)]⟩
      ⟨[("Morphology_I", horKE1 1), ("Site_description", siteKE1),
        ("Morphology_I", horKE1 2)]⟩ "KE" 1 [horKE1 1, horKE1 2]).1 rfl,
   (horizonsOf_sorted_insertion_order_independent
      ⟨[("Site_description", siteKE1), ("Morphology_I", horKE1 2),
        ("Morphology_I", horKE1 1)]⟩
      ⟨[("Morphology_I", horKE1 1), ("Site_description", siteKE1),
        ("Morphology_I", horKE1 2)]⟩ "KE" 1 [horKE1 1, horKE1 2]).2
     (by decide) (by decide)⟩

/-- C7: `spectrumFor(sampleno)` for a sample with no ingested Spectral
Scan fails with `NotFoundError` (it never returns a default or empty
record); and the join operations — `horizonsOf`, `measurementsOf`,
`spectrumFor`, `stationsNear` — are pure functions of the store (read-only
and side-effect-free by construction) whose only error is `NotFoundError`,
so none of them partially succeeds. -/
theorem join_ops_notfound_only :
    (∀ (s : Store) (sn : String),
      (∀ c ∈ s.recs, c.1 = "ICRAF sample codes" →
        fieldVal c.2 "sampleno" = some (Value.vstr sn) →
        ∀ p ∈ s.recs, p.1 = "ASD Spectra" →
          fieldVal p.2 "batch_labid" ≠ fieldVal c.2 "batch and labid") →
      spectrumFor soilRegistry s sn = Except.error Err.NotFoundError) ∧
    (∀ (s : Store) (sn : String) (e : Err),
      spectrumFor soilRegistry s sn = Except.error e → e = Err.NotFoundError) ∧
    (∀ (s : Store) (iso : String) (id : Int) (e : Err),
      horizonsOf soilRegistry s iso id = Except.error e → e = Err.NotFoundError) ∧
    (∀ (s : Store) (iso : String) (id hori : Int) (mk : String) (e : Err),
      measurementsOf soilRegistry s iso id hori mk = Except.error e →
        e = Err.NotFoundError) ∧
    (∀ (s : Store) (iso : String) (id : Int) (e : Err),
      stationsNear soilRegistry s iso id = Except.error e → e = Err.NotFoundError) := by
  refine ⟨?_, ?_, ?_, ?_, ?_⟩
  · intro s sn h
    unfold spectrumFor
    cases hc : s.recs.find? (fun p => decide (p.1 = "ICRAF sample codes" ∧
        fieldVal p.2 "sampleno" = some (Value.vstr sn))) with
    | none => rfl
    | some c =>
      have h1b := @List.find?_some _ (fun p => decide (p.1 = "ICRAF sample codes" ∧
          fieldVal p.2 "sampleno" = some (Value.vstr sn))) c s.recs hc
      have h1 := of_decide_eq_true h1b
      have hmem := List.mem_of_find?_eq_some hc
      have hnone : s.recs.find? (fun p => decide (p.1 = "ASD Spectra" ∧
          fieldVal p.2 "batch_labid" = fieldVal c.2 "batch and labid")) = none := by
        rw [List.find?_eq_none]
        intro p hp hx
        have h2 := of_decide_eq_true hx
        exact h c hmem h1.1 h1.2 p hp h2.1 h2.2
      show (match s.recs.find? (fun p => decide (p.1 = "ASD Spectra" ∧
          fieldVal p.2 "batch_labid" = fieldVal c.2 "batch and labid")) with
        | none => Except.error Err.NotFoundError
        | some p => Except.ok p.2) = Except.error Err.NotFoundError
      rw [hnone]
  · intro s sn e h
    unfold spectrumFor at h
    split at h
    · injection h with h'
      exact h'.symm
    · split at h
      · injection h with h'
        exact h'.symm
      · simp at h
  · intro s iso id e h
    unfold horizonsOf at h
    split_ifs at h
    injection h with h'
    exact h'.symm
  · intro s iso id hori mk e h
    unfold measurementsOf at h
    split_ifs at h
    injection h with h'
    exact h'.symm
  · intro s iso id e h
    unfold stationsNear at h
    split_ifs at h
    injection h with h'
    exact h'.symm

/-- Witness for C7 at a concrete input: no scan was ingested for sample
`S1` in the demo store, so `spectrumFor` returns `NotFoundError`. -/
theorem join_ops_notfound_only_witness :
    spectrumFor soilRegistry demoStore "S1" = Except.error Err.NotFoundError :=
  join_ops_notfound_only.1 demoStore "S1" (by decide)

/-- C8 counterexample: the trace-element kind `Trace_elements` in
`types.h` declares no `hori` field at all (and no `bot` field — its depth
pair is `top`/`bott`), so not every depth-interval measurement kind
carries `(iso, id, hori)` with a `top/bot` or `btop/bbot` pair. -/
theorem trace_elements_has_no_hori :
    ¬ ("hori" ∈ fieldNames Trace_elements_fields) ∧
    ¬ ("bot" ∈ fieldNames Trace_elements_fields) ∧
    "bott" ∈ fieldNames Trace_elements_fields := by decide

set_option maxRecDepth 8192 in
/-- C8 (amended): the chemical, physical, mineralogical (clay and sand),
elemental (soil and clay) and soluble-salt measurement kinds each carry
the horizon key fields `(iso, id, hori)` together with a depth pair named
`top`/`bot` or `btop`/`bbot`; the trace-element kind instead carries only
`(iso, id)` with a depth pair named `top`/`bott` and has no `hori`
field. -/
theorem depth_measurement_key_fields :
    ("iso" ∈ fieldNames Chemical_properties_fields ∧
     "id" ∈ fieldNames Chemical_properties_fields ∧
     "hori" ∈ fieldNames Chemical_properties_fields ∧
     "btop" ∈ fieldNames Chemical_properties_fields ∧
     "bbot" ∈ fieldNames Chemical_properties_fields) ∧
    ("iso" ∈ fieldNames Physical_properties_fields ∧
     "id" ∈ fieldNames Physical_properties_fields ∧
     "hori" ∈ fieldNames Physical_properties_fields ∧
     "btop" ∈ fieldNames Physical_properties_fields ∧
     "bbot" ∈ fieldNames Physical_properties_fields) ∧
    ("iso" ∈ fieldNames Clay_mineralogy_fields ∧
     "id" ∈ fieldNames Clay_mineralogy_fields ∧
     "hori" ∈ fieldNames Clay_mineralogy_fields ∧
     "top" ∈ fieldNames Clay_mineralogy_fields ∧
     "bot" ∈ fieldNames Clay_mineralogy_fields) ∧
    ("iso" ∈ fieldNames Sand_mineralogy_general_fields ∧
     "id" ∈ fieldNames Sand_mineralogy_general_fields ∧
     "hori" ∈ fieldNames Sand_mineralogy_general_fields ∧
     "top" ∈ fieldNames Sand_mineralogy_general_fields ∧
     "bot" ∈ fieldNames Sand_mineralogy_general_fields) ∧
    ("iso" ∈ fieldNames Elemental_composition_soil_fields ∧
     "id" ∈ fieldNames Elemental_composition_soil_fields ∧
     "hori" ∈ fieldNames Elemental_composition_soil_fields ∧
     "top" ∈ fieldNames Elemental_composition_soil_fields ∧
     "bot" ∈ fieldNames Elemental_composition_soil_fields) ∧
    ("iso" ∈ fieldNames Elemental_composition_clay_fields ∧
     "id" ∈ fieldNames Elemental_composition_clay_fields ∧
     "hori" ∈ fieldNames Elemental_composition_clay_fields ∧
     "top" ∈ fieldNames Elemental_composition_clay_fields ∧
     "bot" ∈ fieldNames Elemental_composition_clay_fields) ∧
    ("iso" ∈ fieldNames Soluble_salts_fields ∧
     "id" ∈ fieldNames Soluble_salts_fields ∧
     "hori" ∈ fieldNames Soluble_salts_fields ∧
     "top" ∈ fieldNames Soluble_salts_fields ∧
     "bot" ∈ fieldNames Soluble_salts_fields) ∧
    ("iso" ∈ fieldNames Trace_elements_fields ∧
     "id" ∈ fieldNames Trace_elements_fields ∧
     "top" ∈ fieldNames Trace_elements_fields ∧
     "bott" ∈ fieldNames Trace_elements_fields ∧
     ¬ ("hori" ∈ fieldNames Trace_elements_fields)) := by
  refine ⟨?_, ?_, ?_, ?_, ?_, ?_, ?_, ?_⟩ <;> decide

set_option maxRecDepth 8192 in
/-- C9: the Spectral Scan kind (`ASD Spectra`) is keyed by the single
field `batch_labid` and declares exactly one reflectance field per 10 nm
band from 350 nm to 2500 nm inclusive: exactly 216 wavelength fields named
`w350` through `w2500` (217 fields in total with the key). -/
theorem asd_spectra_band_fields :
    fieldNames ASD_Spectra_fields =
      "batch_labid" :: (List.range 216).map (fun i => "w" ++ toString (350 + 10 * i)) ∧
    soilRegistry.keyFields "ASD Spectra" = ["batch_labid"] ∧
    ASD_Spectra_fields.length = 217 := by
  refine ⟨by decide, rfl, rfl⟩

/-- C10: `Climate_Data` and `Climate_Data_Big` declare exactly the same
fields with the same names and declared types in the same order, so the
record types they denote are equal and any operation on one transfers
unchanged to the other. -/
theorem climate_data_kinds_identical :
    Climate_Data_fields = Climate_Data_Big_fields ∧
    RecordTypeOf Climate_Data_fields = RecordTypeOf Climate_Data_Big_fields :=
  ⟨by decide, rfl⟩
